import Mathlib

/-!
# EcoStock inventory pipeline: formal model and verification

A shallow embedding of the EcoStock dashboard pipeline (`src/app.py`): the
inventory record data model, the three-tier risk classifier, the category
filter, the at-risk subset and its sort, the one-hot/linear demand model's
prediction path, and the CSV record store operations (load, append,
delete-by-match).  Real-valued quantities are rationals; timestamps are
rational day numbers (a date is an integral value, `normalize` is `Int.floor`).
-/

namespace EcoStock

/-- A stored inventory record: one row of the CSV record store
(`mock_inventory.csv`), holding only the eight base fields of the data model.
`ExpiryDate` is a timestamp in days; `StockQty` is a non-negative integer and
`HolidayFlag` is 0/1, per the data model. -/
structure StoredRecord where
  Product : String
  Category : String
  StockQty : ℕ
  WeeklySales : ℚ
  ExpiryDate : ℚ
  StoreID : String
  Weather : String
  HolidayFlag : ℕ
deriving DecidableEq, Repr

/-- A row of the in-memory dataframe during a pipeline run: the stored fields
plus the three derived columns.  The source adds the derived columns as the
run progresses; here they are present from the start with neutral values and
are overwritten by `load_data`, `apply_predictions` and `classify_risk`. -/
structure Row where
  Product : String
  Category : String
  StockQty : ℕ
  WeeklySales : ℚ
  ExpiryDate : ℚ
  StoreID : String
  Weather : String
  HolidayFlag : ℕ
  DaysToExpire : ℤ
  PredictedDemand : ℚ
  RiskLevel : String
deriving DecidableEq, Repr

/-- The selection rule of `np.select(conditions, choices, default)`: the
choice of the first condition that holds, else the default. -/
def npSelect {α : Type} : List (Bool × α) → α → α
  | [], d => d
  | (c, v) :: rest, d => if c then v else npSelect rest d

/-- First stacked condition of `classify_risk`:
`(PredictedDemand < 0.7 * StockQty) & (DaysToExpire < 5)`. -/
def highCond (r : Row) : Bool :=
  decide (r.PredictedDemand < (7/10 : ℚ) * (r.StockQty : ℚ)) && decide (r.DaysToExpire < 5)

/-- Second stacked condition of `classify_risk`:
`(PredictedDemand < 0.9 * StockQty) | ((DaysToExpire >= 5) & (DaysToExpire < 8))`. -/
def mediumCond (r : Row) : Bool :=
  decide (r.PredictedDemand < (9/10 : ℚ) * (r.StockQty : ℚ)) ||
    (decide (5 ≤ r.DaysToExpire) && decide (r.DaysToExpire < 8))

/-- Risk label of one row:
`np.select([high, medium], ['HIGH', 'MEDIUM'], default='LOW')`. -/
def classifyRiskLabel (r : Row) : String :=
  npSelect [(highCond r, "HIGH"), (mediumCond r, "MEDIUM")] "LOW"

/-- The function `classify_risk` of `src/app.py`: sets the `RiskLevel` column. -/
def classify_risk (df : List Row) : List Row :=
  df.map fun r => { r with RiskLevel := classifyRiskLabel r }

/-- The category filter:
`df[df['Category'].isin(selected_category)] if selected_category else df`
(an empty selection falls back to the unfiltered dataframe). -/
def filtered_df (df : List Row) (selected : List String) : List Row :=
  if selected.isEmpty then df else df.filter fun r => selected.contains r.Category

/-- The distinct category values of the dataset, `df['Category'].unique()`. -/
def uniqueCategories (df : List Row) : List String :=
  (df.map Row.Category).dedup

/-- The comparison of `sort_values(by=['RiskLevel', 'DaysToExpire'])`:
ascending lexicographic order on the string `RiskLevel`, then on the integer
`DaysToExpire`. -/
def rowLe (a b : Row) : Bool :=
  decide (a.RiskLevel < b.RiskLevel) ||
    (decide (a.RiskLevel = b.RiskLevel) && decide (a.DaysToExpire ≤ b.DaysToExpire))

/-- The at-risk subset: rows whose `RiskLevel` is in `['HIGH', 'MEDIUM']`,
then `sort_values(by=['RiskLevel', 'DaysToExpire'])`. -/
def at_risk (df : List Row) : List Row :=
  (df.filter fun r => ["HIGH", "MEDIUM"].contains r.RiskLevel).mergeSort rowLe

/-- Record store operation `load_all`: the store returns all stored rows. -/
def load_all (store : List StoredRecord) : List StoredRecord := store

/-- The append handler: read the full store, concatenate the new row at the
end, write back. -/
def appendRecord (store : List StoredRecord) (r : StoredRecord) : List StoredRecord :=
  store ++ [r]

/-- The row condition of the Confirm-Delete handler: the stored row matches
the identity tuple (Product, Category, StoreID, date-normalized ExpiryDate). -/
def matchesTuple (p c sid : String) (expNorm : ℤ) (r : StoredRecord) : Bool :=
  decide (r.Product = p) && decide (r.Category = c) && decide (r.StoreID = sid) &&
    decide (⌊r.ExpiryDate⌋ = expNorm)

/-- The Confirm-Delete handler, `updated_df = full_df[~condition]`: keep
exactly the rows that do not match the identity tuple, write back. -/
def delete_matching (store : List StoredRecord) (p c sid : String) (expNorm : ℤ) :
    List StoredRecord :=
  store.filter fun r => !matchesTuple p c sid expNorm r

/-- One row of `load_data`: carry the stored fields over and add
`DaysToExpire = (ExpiryDate - today).days`, the floor of the signed
difference, so already-expired stock gets a negative value. -/
def loadRow (today : ℚ) (s : StoredRecord) : Row :=
  { Product := s.Product, Category := s.Category, StockQty := s.StockQty,
    WeeklySales := s.WeeklySales, ExpiryDate := s.ExpiryDate, StoreID := s.StoreID,
    Weather := s.Weather, HolidayFlag := s.HolidayFlag,
    DaysToExpire := ⌊s.ExpiryDate - today⌋, PredictedDemand := 0, RiskLevel := "" }

/-- The function `load_data` of `src/app.py`: all stored rows, enriched with
`DaysToExpire` relative to the current timestamp `today`. -/
def load_data (store : List StoredRecord) (today : ℚ) : List Row :=
  (load_all store).map (loadRow today)

/-- The per-column value lists learned by the one-hot encoder at fit time:
the distinct values of Category, StoreID and Weather seen in the data. -/
structure EncoderLevels where
  cats : List String
  stores : List String
  weathers : List String
deriving DecidableEq, Repr

/-- One-hot encoder fit over the feature frame. -/
def oneHotFit (df : List Row) : EncoderLevels :=
  ⟨(df.map Row.Category).dedup, (df.map Row.StoreID).dedup, (df.map Row.Weather).dedup⟩

/-- One-hot indicator of a value against the learned levels.  With
`handle_unknown='ignore'`, a value outside the levels yields all zeros. -/
def indicator (levels : List String) (v : String) : List ℚ :=
  levels.map fun l => if l = v then 1 else 0

/-- The column transformer output for one row: the one-hot blocks for
Category, StoreID and Weather, then `HolidayFlag` passed through numerically. -/
def transformRow (lv : EncoderLevels) (r : Row) : List ℚ :=
  indicator lv.cats r.Category ++ indicator lv.stores r.StoreID ++
    indicator lv.weathers r.Weather ++ [(r.HolidayFlag : ℚ)]

/-- Total width of the one-hot portion of the feature vector. -/
def oneHotWidth (lv : EncoderLevels) : ℕ :=
  lv.cats.length + lv.stores.length + lv.weathers.length

/-- A fitted model (preprocessor plus linear regressor): the learned encoder
levels, the regressor coefficient vector over the transformed features, and
the intercept. -/
structure Model where
  levels : EncoderLevels
  coef : List ℚ
  intercept : ℚ
deriving Repr

/-- Dot product of two coordinate lists. -/
def dot (a b : List ℚ) : ℚ := (List.zipWith (· * ·) a b).sum

/-- Round to the nearest integer, ties to even, as `np.round` does. -/
def roundHalfEven (q : ℚ) : ℤ :=
  if q - ⌊q⌋ < 1/2 then ⌊q⌋
  else if 1/2 < q - ⌊q⌋ then ⌊q⌋ + 1
  else if ⌊q⌋ % 2 = 0 then ⌊q⌋ else ⌊q⌋ + 1

/-- Rounding to 2 decimal places, `.round(2)`. -/
def round2 (q : ℚ) : ℚ := (roundHalfEven (q * 100) : ℚ) / 100

/-- Model prediction on one row, with the `.round(2)` applied by
`apply_predictions`. -/
def predictRow (m : Model) (r : Row) : ℚ :=
  round2 (m.intercept + dot m.coef (transformRow m.levels r))

/-- The function `train_model` of `src/app.py`.  The encoder levels are
learned from the data; the ordinary-least-squares solve performed by the
regressor fit is supplied as the parameter `ols`, mapping the transformed
design matrix and the target column to a coefficient vector and intercept. -/
def train_model (ols : List (List ℚ) → List ℚ → List ℚ × ℚ) (df : List Row) : Model :=
  let lv := oneHotFit df
  let fit := ols (df.map (transformRow lv)) (df.map Row.WeeklySales)
  ⟨lv, fit.1, fit.2⟩

/-- The function `apply_predictions` of `src/app.py`: sets the
`PredictedDemand` column from the fitted model. -/
def apply_predictions (df : List Row) (m : Model) : List Row :=
  df.map fun r => { r with PredictedDemand := predictRow m r }

/-- The per-render pipeline of `src/app.py` (load, concat staged manual
entries enriched the same way, fit, predict, classify).  It returns the
annotated dataframe together with the record store as left behind by the run;
the pipeline never writes to the store. -/
def runPipeline (ols : List (List ℚ) → List ℚ → List ℚ × ℚ)
    (store staged : List StoredRecord) (today : ℚ) :
    List Row × List StoredRecord :=
  let df := load_data store today ++ staged.map (loadRow today)
  let m := train_model ols df
  (classify_risk (apply_predictions df m), store)

/-- A raw cell of the target column as read from CSV: numeric or text. -/
inductive Cell where
  | num (q : ℚ)
  | str (s : String)
deriving DecidableEq, Repr

/-- The fit-time failure taxonomy of the error handling design. -/
inductive DataError where
  | emptyData
  | nonNumericTarget
deriving DecidableEq, Repr

/-- Numeric reading of a raw target cell. -/
def Cell.toNum : Cell → Option ℚ
  | .num q => some q
  | .str _ => none

/-- Numeric reading of a whole target column: all cells, or failure as soon
as one cell is non-numeric. -/
def readTargets : List Cell → Option (List ℚ)
  | [] => some []
  | c :: t =>
    match c.toNum, readTargets t with
    | some q, some ys => some (q :: ys)
    | _, _ => none

/-- Modelled from the spec: `train_model` itself does not guard its input,
and the validation that rejects an empty record set or a non-numeric target
column lives in the regression library, outside `src/`.  Fitting with zero
rows, or with a `WeeklySales` target column containing a non-numeric value,
fails with a `DataError`; otherwise the numeric target column is handed on to
the least-squares solve. -/
def checkedFitTarget (target : List Cell) : Except DataError (List ℚ) :=
  if target.isEmpty then .error .emptyData
  else
    match readTargets target with
    | some ys => .ok ys
    | none => .error .nonNumericTarget

/-! ## Verification -/

/-- The stacked `np.select` of `classify_risk` is the priority chain: HIGH if
its condition holds, else MEDIUM if its condition holds, else LOW. -/
lemma classifyRiskLabel_eq_ite (r : Row) :
    classifyRiskLabel r =
      if r.PredictedDemand < (7/10 : ℚ) * (r.StockQty : ℚ) ∧ r.DaysToExpire < 5 then "HIGH"
      else if r.PredictedDemand < (9/10 : ℚ) * (r.StockQty : ℚ) ∨
          (5 ≤ r.DaysToExpire ∧ r.DaysToExpire < 8) then "MEDIUM"
      else "LOW" := by
  simp only [classifyRiskLabel, npSelect, highCond, mediumCond]
  by_cases h1 : r.PredictedDemand < (7/10 : ℚ) * (r.StockQty : ℚ) <;>
    by_cases h2 : r.DaysToExpire < 5 <;>
    by_cases h3 : r.PredictedDemand < (9/10 : ℚ) * (r.StockQty : ℚ) <;>
    by_cases h4 : 5 ≤ r.DaysToExpire ∧ r.DaysToExpire < 8 <;>
    simp [h1, h2, h3, h4]

/-- C1: every record gets exactly one of the three labels with HIGH checked
first: the label is HIGH iff `PredictedDemand < 0.7·StockQty` and
`DaysToExpire < 5`; otherwise MEDIUM iff `PredictedDemand < 0.9·StockQty` or
`5 ≤ DaysToExpire < 8`; otherwise LOW.  In particular a record with
`PredictedDemand < 0.7·StockQty` but `DaysToExpire ≥ 8` is MEDIUM, and a
negative `DaysToExpire` together with the demand shortfall yields HIGH. -/
theorem classify_risk_three_tier (r : Row) :
    (classifyRiskLabel r = "HIGH" ∨ classifyRiskLabel r = "MEDIUM" ∨
      classifyRiskLabel r = "LOW") ∧
    (classifyRiskLabel r = "HIGH" ↔
      r.PredictedDemand < (7/10 : ℚ) * (r.StockQty : ℚ) ∧ r.DaysToExpire < 5) ∧
    (classifyRiskLabel r = "MEDIUM" ↔
      ¬(r.PredictedDemand < (7/10 : ℚ) * (r.StockQty : ℚ) ∧ r.DaysToExpire < 5) ∧
        (r.PredictedDemand < (9/10 : ℚ) * (r.StockQty : ℚ) ∨
          (5 ≤ r.DaysToExpire ∧ r.DaysToExpire < 8))) ∧
    (classifyRiskLabel r = "LOW" ↔
      ¬(r.PredictedDemand < (7/10 : ℚ) * (r.StockQty : ℚ) ∧ r.DaysToExpire < 5) ∧
        ¬(r.PredictedDemand < (9/10 : ℚ) * (r.StockQty : ℚ) ∨
          (5 ≤ r.DaysToExpire ∧ r.DaysToExpire < 8))) ∧
    (r.PredictedDemand < (7/10 : ℚ) * (r.StockQty : ℚ) → 8 ≤ r.DaysToExpire →
      classifyRiskLabel r = "MEDIUM") ∧
    (r.PredictedDemand < (7/10 : ℚ) * (r.StockQty : ℚ) → r.DaysToExpire < 0 →
      classifyRiskLabel r = "HIGH") := by
  have hsn : (0 : ℚ) ≤ (r.StockQty : ℚ) := Nat.cast_nonneg _
  have h79 : (7/10 : ℚ) * (r.StockQty : ℚ) ≤ (9/10 : ℚ) * (r.StockQty : ℚ) := by nlinarith
  rw [classifyRiskLabel_eq_ite]
  split_ifs with hH hM
  · exact ⟨Or.inl rfl,
      iff_of_true rfl hH,
      iff_of_false (by decide) fun h => h.1 hH,
      iff_of_false (by decide) fun h => h.1 hH,
      fun _ h8 => absurd hH.2 (by omega),
      fun _ _ => rfl⟩
  · exact ⟨Or.inr (Or.inl rfl),
      iff_of_false (by decide) hH,
      iff_of_true rfl ⟨hH, hM⟩,
      iff_of_false (by decide) fun h => h.2 hM,
      fun _ _ => rfl,
      fun hp hneg => absurd ⟨hp, by omega⟩ hH⟩
  · exact ⟨Or.inr (Or.inr rfl),
      iff_of_false (by decide) hH,
      iff_of_false (by decide) fun h => hM h.2,
      iff_of_true rfl ⟨hH, hM⟩,
      fun hp _ => absurd (Or.inl (lt_of_lt_of_le hp h79)) hM,
      fun hp hneg => absurd ⟨hp, by omega⟩ hH⟩

/-- Witness for C1: the asymmetric boundary case of the spec (StockQty 100,
PredictedDemand 65, DaysToExpire 20 gives MEDIUM, not HIGH) and an
already-expired record with demand shortfall (DaysToExpire −2 gives HIGH). -/
theorem classify_risk_three_tier_witness :
    classifyRiskLabel ⟨"P", "Packaged", 100, 0, 0, "S01", "Sunny", 0, 20, 65, ""⟩ =
      "MEDIUM" ∧
    classifyRiskLabel ⟨"P", "Packaged", 100, 0, 0, "S01", "Sunny", 0, -2, 65, ""⟩ =
      "HIGH" :=
  ⟨(classify_risk_three_tier _).2.2.2.2.1 (by norm_num) (by norm_num),
   (classify_risk_three_tier _).2.2.2.2.2 (by norm_num) (by norm_num)⟩

/-- If the target column has a textual cell, its numeric reading fails. -/
lemma readTargets_eq_none {l : List Cell} {s : String} (h : Cell.str s ∈ l) :
    readTargets l = none := by
  induction l with
  | nil => cases h
  | cons a t ih =>
    cases h with
    | head => simp [readTargets, Cell.toNum]
    | tail _ ht =>
      cases a with
      | num q => simp [readTargets, Cell.toNum, ih ht]
      | str s₂ => simp [readTargets, Cell.toNum]

/-- C9: fitting on zero rows, or on a target column holding a non-numeric
value, fails with a `DataError`; in neither case does the fit return a
model's target data. -/
theorem checked_fit_fails (target : List Cell) :
    (target = [] → checkedFitTarget target = .error .emptyData) ∧
    (∀ s, Cell.str s ∈ target →
      checkedFitTarget target = .error .nonNumericTarget) ∧
    ((target = [] ∨ ∃ s, Cell.str s ∈ target) →
      ∀ ys, checkedFitTarget target ≠ .ok ys) := by
  have hempty : target = [] → checkedFitTarget target = .error .emptyData := by
    rintro rfl; rfl
  have hnn : ∀ s, Cell.str s ∈ target →
      checkedFitTarget target = .error .nonNumericTarget := by
    intro s hs
    have hne : ¬target.isEmpty := by
      cases target with
      | nil => cases hs
      | cons a t => simp
    unfold checkedFitTarget
    rw [if_neg hne, readTargets_eq_none hs]
  refine ⟨hempty, hnn, ?_⟩
  rintro (rfl | ⟨s, hs⟩) ys hok
  · rw [hempty rfl] at hok; exact Except.noConfusion hok
  · rw [hnn s hs] at hok; exact Except.noConfusion hok

/-- Witness for C9: the empty target column and a concrete column with a
textual cell both fail, each with its `DataError`. -/
theorem checked_fit_fails_witness :
    checkedFitTarget [] = .error .emptyData ∧
    checkedFitTarget [Cell.num 4, Cell.str "n/a"] = .error .nonNumericTarget :=
  ⟨(checked_fit_fails []).1 rfl,
   (checked_fit_fails [Cell.num 4, Cell.str "n/a"]).2.1 "n/a" (by simp)⟩

/-- The one-hot indicator of a value outside the levels is all zeros. -/
lemma indicator_of_not_mem {levels : List String} {v : String} (h : v ∉ levels) :
    indicator levels v = List.replicate levels.length 0 := by
  induction levels with
  | nil => rfl
  | cons a t ih =>
    have hne : ¬(a = v) := fun he => h (he ▸ List.mem_cons_self a t)
    have ht : v ∉ t := fun hm => h (List.mem_cons_of_mem a hm)
    simp only [indicator, List.map_cons, if_neg hne, List.length_cons,
      List.replicate_succ]
    exact congrArg (0 :: ·) (ih ht)

/-- Dotting any coefficients against a zero vector gives zero. -/
lemma dot_replicate_zero (cs : List ℚ) (n : ℕ) : dot cs (List.replicate n 0) = 0 := by
  induction cs generalizing n with
  | nil => simp [dot]
  | cons a t ih =>
    cases n with
    | zero => simp [dot]
    | succ m =>
      simp only [dot, List.replicate_succ, List.zipWith_cons_cons, List.sum_cons,
        mul_zero, zero_add]
      exact ih m

/-- C4: for a fitted model and a record none of whose categorical values was
seen at fit time, the transformed feature vector is all-zero on the one-hot
portion, and the prediction is the intercept plus the HolidayFlag coefficient
times the record's HolidayFlag, rounded to 2 decimal places — no error. -/
theorem predict_unseen_categories (df : List Row) (m : Model) (r : Row)
    (cs : List ℚ) (ch : ℚ)
    (hlv : m.levels = oneHotFit df)
    (hcoef : m.coef = cs ++ [ch])
    (hlen : cs.length = oneHotWidth m.levels)
    (hc : r.Category ∉ df.map Row.Category)
    (hs : r.StoreID ∉ df.map Row.StoreID)
    (hw : r.Weather ∉ df.map Row.Weather) :
    transformRow m.levels r =
      List.replicate (oneHotWidth m.levels) 0 ++ [(r.HolidayFlag : ℚ)] ∧
    predictRow m r = round2 (m.intercept + ch * (r.HolidayFlag : ℚ)) := by
  have hc₂ : r.Category ∉ (oneHotFit df).cats := fun hm => hc (List.mem_dedup.mp hm)
  have hs₂ : r.StoreID ∉ (oneHotFit df).stores := fun hm => hs (List.mem_dedup.mp hm)
  have hw₂ : r.Weather ∉ (oneHotFit df).weathers := fun hm => hw (List.mem_dedup.mp hm)
  have htrans : transformRow m.levels r =
      List.replicate (oneHotWidth m.levels) 0 ++ [(r.HolidayFlag : ℚ)] := by
    rw [hlv]
    unfold transformRow oneHotWidth
    rw [indicator_of_not_mem hc₂, indicator_of_not_mem hs₂, indicator_of_not_mem hw₂,
      ← List.replicate_add, ← List.replicate_add]
  refine ⟨htrans, ?_⟩
  unfold predictRow
  rw [htrans, hcoef]
  have hlen₂ : cs.length = (List.replicate (oneHotWidth m.levels) (0 : ℚ)).length := by
    rw [List.length_replicate]; exact hlen
  unfold dot
  rw [List.zipWith_append _ _ _ _ _ hlen₂, List.sum_append]
  have hz : (List.zipWith (· * ·) cs
      (List.replicate (oneHotWidth m.levels) (0 : ℚ))).sum = 0 :=
    dot_replicate_zero cs (oneHotWidth m.levels)
  rw [hz]
  simp

/-- Witness for C4: a one-row training frame, its learned levels with a
matching-length coefficient vector, and a record with entirely unseen
Category, StoreID and Weather. -/
theorem predict_unseen_categories_witness :
    transformRow
        (Model.mk (oneHotFit [⟨"Milk", "Dairy", 5, 3, 10, "S01", "Sunny", 0, 0, 0, ""⟩])
          [2, 3, 4, 5] 7).levels
        ⟨"Juice", "Beverages", 9, 1, 30, "S02", "Rainy", 1, 0, 0, ""⟩ =
      List.replicate
        (oneHotWidth
          (Model.mk (oneHotFit [⟨"Milk", "Dairy", 5, 3, 10, "S01", "Sunny", 0, 0, 0, ""⟩])
            [2, 3, 4, 5] 7).levels) 0 ++ [(1 : ℚ)] ∧
    predictRow
        (Model.mk (oneHotFit [⟨"Milk", "Dairy", 5, 3, 10, "S01", "Sunny", 0, 0, 0, ""⟩])
          [2, 3, 4, 5] 7)
        ⟨"Juice", "Beverages", 9, 1, 30, "S02", "Rainy", 1, 0, 0, ""⟩ =
      round2 (7 + 5 * (1 : ℚ)) :=
  predict_unseen_categories
    [⟨"Milk", "Dairy", 5, 3, 10, "S01", "Sunny", 0, 0, 0, ""⟩] _
    ⟨"Juice", "Beverages", 9, 1, 30, "S02", "Rainy", 1, 0, 0, ""⟩
    [2, 3, 4] 5 rfl rfl (by decide) (by decide) (by decide) (by decide)


/-- C10: The risk classification of a record depends only on its
`PredictedDemand`, `StockQty` and `DaysToExpire` values: two rows agreeing on
these three fields get the same `RiskLevel` from `classify_risk`, whatever
their other fields. -/
theorem classify_risk_depends_only_on_demand_stock_expiry (r₁ r₂ : Row)
    (hp : r₁.PredictedDemand = r₂.PredictedDemand)
    (hs : r₁.StockQty = r₂.StockQty)
    (hd : r₁.DaysToExpire = r₂.DaysToExpire) :
    classifyRiskLabel r₁ = classifyRiskLabel r₂ := by
  simp [classifyRiskLabel, highCond, mediumCond, hp, hs, hd]

/-- Witness for C10 at two concrete rows differing in every other field. -/
theorem classify_risk_depends_only_on_demand_stock_expiry_witness :
    classifyRiskLabel
        ⟨"Milk", "Dairy", 10, 5, 20, "S01", "Sunny", 0, 3, 6, ""⟩ =
      classifyRiskLabel
        ⟨"Bread", "Bakery", 10, 99, 45, "S02", "Rainy", 1, 3, 6, "LOW"⟩ :=
  classify_risk_depends_only_on_demand_stock_expiry _ _ rfl rfl rfl

/-- C3: filtering with an empty category selection returns the same result as
filtering with every category present in the dataset selected. -/
theorem empty_selection_equals_select_all (df : List Row) :
    filtered_df df [] = filtered_df df (uniqueCategories df) := by
  unfold filtered_df
  simp only [List.isEmpty_nil, if_true]
  split
  · rfl
  · symm
    apply List.filter_eq_self.mpr
    intro r hr
    have hmem : r.Category ∈ uniqueCategories df :=
      List.mem_dedup.mpr (List.mem_map_of_mem Row.Category hr)
    simpa [List.contains, List.elem_iff] using hmem

/-- C5: `delete_matching` removes exactly the stored rows that match the
identity tuple (all duplicates included), keeps every other row with its
multiplicity, and is a no-op when no stored row matches. -/
theorem delete_matching_removes_exactly_matches
    (store : List StoredRecord) (p c sid : String) (e : ℤ) :
    (∀ r : StoredRecord,
      (delete_matching store p c sid e).count r =
        if matchesTuple p c sid e r then 0 else store.count r) ∧
    ((∀ r ∈ store, matchesTuple p c sid e r = false) →
      delete_matching store p c sid e = store) := by
  constructor
  · intro r
    by_cases h : matchesTuple p c sid e r = true
    · simp only [h, if_true]
      apply List.count_eq_zero_of_not_mem
      intro hmem
      have := List.of_mem_filter hmem
      simp [h] at this
    · simp only [h, if_false]
      exact List.count_filter (by simp [h])
  · intro h
    apply List.filter_eq_self.mpr
    intro r hr
    simp [h r hr]

/-- Witness for C5: deleting a tuple that matches nothing leaves a concrete
one-row store unchanged. -/
theorem delete_matching_removes_exactly_matches_witness :
    delete_matching [⟨"Milk", "Dairy", 5, 3, 10, "S01", "Sunny", 0⟩]
        "Bread" "Bakery" "S02" 7 =
      [⟨"Milk", "Dairy", 5, 3, 10, "S01", "Sunny", 0⟩] :=
  (delete_matching_removes_exactly_matches _ "Bread" "Bakery" "S02" 7).2 (by decide)

/-- C6: round-trip through the record store.  After `appendRecord r`,
`load_all` includes a row equal to `r` in all fields; after `delete_matching`
on the identity tuple of `r`, `load_all` excludes `r`. -/
theorem store_roundtrip (store store₂ : List StoredRecord) (r : StoredRecord) :
    r ∈ load_all (appendRecord store r) ∧
    r ∉ load_all
        (delete_matching store₂ r.Product r.Category r.StoreID ⌊r.ExpiryDate⌋) := by
  constructor
  · simp [load_all, appendRecord]
  · intro hmem
    have := List.of_mem_filter hmem
    simp [matchesTuple] at this

/-- C7: the pipeline is deterministic and idempotent.  A second run on the
record store left behind by a first run, with the same staged entries, the
same current date and the same least-squares solver, produces the same
`PredictedDemand` and `RiskLevel` for every row. -/
theorem pipeline_idempotent (ols : List (List ℚ) → List ℚ → List ℚ × ℚ)
    (store staged : List StoredRecord) (today : ℚ) :
    (runPipeline ols (runPipeline ols store staged today).2 staged today).1.map
        (fun r => (r.PredictedDemand, r.RiskLevel)) =
      (runPipeline ols store staged today).1.map
        (fun r => (r.PredictedDemand, r.RiskLevel)) := rfl

/-- C8: the pipeline has no side effect on the record store: after any
invocation the store, and hence the result of `load_all`, is unchanged, so no
derived field is ever written back to storage. -/
theorem pipeline_leaves_store_unchanged (ols : List (List ℚ) → List ℚ → List ℚ × ℚ)
    (store staged : List StoredRecord) (today : ℚ) :
    (runPipeline ols store staged today).2 = store ∧
    load_all (runPipeline ols store staged today).2 = load_all store :=
  ⟨rfl, rfl⟩

/-- The sort comparison is transitive. -/
lemma rowLe_trans (a b c : Row) (hab : rowLe a b) (hbc : rowLe b c) : rowLe a c := by
  simp only [rowLe, Bool.or_eq_true, Bool.and_eq_true, decide_eq_true_eq] at hab hbc ⊢
  rcases hab with h | ⟨he, hd⟩ <;> rcases hbc with h₂ | ⟨he₂, hd₂⟩
  · exact Or.inl (lt_trans h h₂)
  · exact Or.inl (he₂ ▸ h)
  · exact Or.inl (he ▸ h₂)
  · exact Or.inr ⟨he.trans he₂, le_trans hd hd₂⟩

/-- The sort comparison is total. -/
lemma rowLe_total (a b : Row) : rowLe a b || rowLe b a := by
  simp only [rowLe, Bool.or_eq_true, Bool.and_eq_true, decide_eq_true_eq]
  rcases lt_trichotomy a.RiskLevel b.RiskLevel with h | h | h
  · exact Or.inl (Or.inl h)
  · rcases le_total a.DaysToExpire b.DaysToExpire with hd | hd
    · exact Or.inl (Or.inr ⟨h, hd⟩)
    · exact Or.inr (Or.inr ⟨h.symm, hd⟩)
  · exact Or.inr (Or.inl h)

/-- Membership filter of the at-risk subset, spelled propositionally. -/
lemma contains_high_medium (r : Row) :
    (["HIGH", "MEDIUM"].contains r.RiskLevel) =
      decide (r.RiskLevel = "HIGH" ∨ r.RiskLevel = "MEDIUM") := by
  by_cases h₁ : r.RiskLevel = "HIGH" <;> by_cases h₂ : r.RiskLevel = "MEDIUM" <;>
    simp [h₁, h₂]

/-- C2: the at-risk subset holds exactly the rows whose `RiskLevel` is HIGH
or MEDIUM (as a permutation of the filtered rows, multiplicities included),
and in the output every earlier row relates to every later one by: HIGH
before MEDIUM, or same tier with `DaysToExpire` ascending. -/
theorem at_risk_members_and_order (df : List Row) :
    (at_risk df).Perm
        (df.filter fun r => decide (r.RiskLevel = "HIGH" ∨ r.RiskLevel = "MEDIUM")) ∧
    (at_risk df).Pairwise (fun a b =>
      (a.RiskLevel = "HIGH" ∧ b.RiskLevel = "MEDIUM") ∨
      (a.RiskLevel = b.RiskLevel ∧ a.DaysToExpire ≤ b.DaysToExpire)) := by
  have hfil : (df.filter fun r => ["HIGH", "MEDIUM"].contains r.RiskLevel) =
      df.filter fun r => decide (r.RiskLevel = "HIGH" ∨ r.RiskLevel = "MEDIUM") :=
    List.filter_congr fun r _ => contains_high_medium r
  constructor
  · exact hfil ▸ List.mergeSort_perm _ rowLe
  · have hsorted := List.sorted_mergeSort rowLe_trans rowLe_total
      (df.filter fun r => ["HIGH", "MEDIUM"].contains r.RiskLevel)
    refine List.Pairwise.imp_of_mem ?_ hsorted
    intro a b ha hb hab
    have hmem : ∀ {x : Row},
        x ∈ (df.filter fun r => ["HIGH", "MEDIUM"].contains r.RiskLevel).mergeSort rowLe →
        x.RiskLevel = "HIGH" ∨ x.RiskLevel = "MEDIUM" := by
      intro x hx
      have := List.of_mem_filter (List.mem_mergeSort.mp hx)
      simpa using this
    rcases hmem ha with h₁ | h₁ <;> rcases hmem hb with h₂ | h₂ <;>
      simp only [rowLe, Bool.or_eq_true, Bool.and_eq_true, decide_eq_true_eq,
        h₁, h₂] at hab
    · rcases hab with hlt | ⟨_, hd⟩
      · exact absurd hlt (lt_irrefl _)
      · exact Or.inr ⟨h₁.trans h₂.symm, hd⟩
    · exact Or.inl ⟨h₁, h₂⟩
    · rcases hab with hlt | ⟨heq, _⟩
      · exact absurd hlt (by rw [String.lt_iff_toList_lt]; decide)
      · exact absurd heq (by decide)
    · rcases hab with hlt | ⟨_, hd⟩
      · exact absurd hlt (lt_irrefl _)
      · exact Or.inr ⟨h₁.trans h₂.symm, hd⟩

end EcoStock
